import Mathlib

/-!
Verification of the study-assistant scripts (`scripts/01_qna_assistant.py`,
`scripts/02_generate_notes.py`).

Two pieces of logic are embedded:

* the schema-validation layer (`Note`, `NotesResponse`,
  `validate_and_create_notes` in `02_generate_notes.py`), modelled over a
  small JSON value type; the pydantic constructor is rendered as an
  `Except`-valued validator whose error value corresponds to the
  `ValidationError` the Python code catches and prints before returning
  `None`;

* the two polling loops (`while attempts < max_attempts` in
  `generate_notes_with_assistant` of `02_generate_notes.py` and in
  `ask_question` of `01_qna_assistant.py`), rendered as fuel-indexed pure
  functions over an abstract status trace `Nat → JobStatus` (the status the
  remote service reports at the k-th retrieve call).  Each function also
  returns the number of status checks and sleeps performed, so the
  spec's bounded-polling properties can be stated.
-/

namespace StudyAssistant

/-- JSON values as produced by `json.loads`: the subset needed by the
schema (numbers are modelled as integers, which is what the schema's
`int` fields consume; duplicate object keys resolve to the last one,
as in Python's `json.loads`). -/
inductive Json where
  | null : Json
  | bool (b : Bool) : Json
  | num (n : Int) : Json
  | str (s : String) : Json
  | arr (xs : List Json) : Json
  | obj (kvs : List (String × Json)) : Json

/-- Key lookup in a JSON object, last duplicate wins (Python dict
semantics for `json.loads`). -/
def objGet (kvs : List (String × Json)) (key : String) : Option Json :=
  kvs.foldl (fun acc p => if p.1 = key then some p.2 else acc) none

/-- One study note, mirroring the pydantic model `Note` of
`02_generate_notes.py`: `id` is constrained to `ge=1, le=10`, `heading`
to `min_length=1, max_length=100`, `summary` to `max_length=150`;
`page_ref` is `Optional[int]` with default `None` and carries no other
constraint. -/
structure Note where
  id : Int
  heading : String
  summary : String
  page_ref : Option Int
deriving Repr, DecidableEq

/-- The pydantic model `NotesResponse`: a `notes` list with
`min_items=10, max_items=10`. -/
structure NotesResponse where
  notes : List Note
deriving Repr, DecidableEq

/-- Outcomes of the validation layer.  `Malformed` corresponds to the
`json.JSONDecodeError` branch, `WrongArity` and `FieldConstraint` to
pydantic `ValidationError`s (the model reports the first failing
constraint, a choice the spec leaves open), `NotAnObject` to the
`TypeError` raised by `NotesResponse(**data)` when the parsed value is
not an object (caught by the generic `except Exception` branch). -/
inductive ValidationErr where
  | Malformed (diag : String)
  | WrongArity (actual : Nat)
  | FieldConstraint (field : String) (reason : String)
  | NotAnObject
deriving Repr, DecidableEq

/-- Validation of one element of the `notes` array against the `Note`
schema, field by field in declaration order (`id`, `heading`,
`summary`, `page_ref`).  `page_ref` accepts absence, `null`, or any
integer: the source puts no bound on it. -/
def validateNote : Json → Except ValidationErr Note
  | Json.obj kvs =>
    match objGet kvs "id" with
    | some (Json.num i) =>
      if 1 ≤ i ∧ i ≤ 10 then
        match objGet kvs "heading" with
        | some (Json.str h) =>
          if 1 ≤ h.length ∧ h.length ≤ 100 then
            match objGet kvs "summary" with
            | some (Json.str s) =>
              if s.length ≤ 150 then
                match objGet kvs "page_ref" with
                | none => Except.ok ⟨i, h, s, none⟩
                | some Json.null => Except.ok ⟨i, h, s, none⟩
                | some (Json.num p) => Except.ok ⟨i, h, s, some p⟩
                | some _ =>
                  Except.error (ValidationErr.FieldConstraint "page_ref" "value is not a valid integer")
              else Except.error (ValidationErr.FieldConstraint "summary" "ensure this value has at most 150 characters")
            | some _ => Except.error (ValidationErr.FieldConstraint "summary" "str type expected")
            | none => Except.error (ValidationErr.FieldConstraint "summary" "field required")
          else Except.error (ValidationErr.FieldConstraint "heading" "length must be between 1 and 100")
        | some _ => Except.error (ValidationErr.FieldConstraint "heading" "str type expected")
        | none => Except.error (ValidationErr.FieldConstraint "heading" "field required")
      else Except.error (ValidationErr.FieldConstraint "id" "must be between 1 and 10")
    | some _ => Except.error (ValidationErr.FieldConstraint "id" "value is not a valid integer")
    | none => Except.error (ValidationErr.FieldConstraint "id" "field required")
  | _ => Except.error (ValidationErr.FieldConstraint "notes" "value is not a valid dict")

/-- Element-wise validation of the `notes` array, in order, stopping at
the first failing element (pydantic validates each list item against
`Note`). -/
def validateNotes : List Json → Except ValidationErr (List Note)
  | [] => Except.ok []
  | x :: xs =>
    match validateNote x with
    | Except.error e => Except.error e
    | Except.ok n =>
      match validateNotes xs with
      | Except.error e => Except.error e
      | Except.ok ns => Except.ok (n :: ns)

/-- The `NotesResponse(**data)` construction: the parsed value must be
an object; its `notes` field must be a list; the list length must be
exactly 10 (`min_items=10, max_items=10`); each element must validate
as a `Note`.  Unknown keys, at the top level and inside each note
object, are ignored (pydantic's default `extra` behaviour). -/
def validateNotesResponse : Json → Except ValidationErr NotesResponse
  | Json.obj kvs =>
    match objGet kvs "notes" with
    | some (Json.arr xs) =>
      if xs.length = 10 then
        match validateNotes xs with
        | Except.error e => Except.error e
        | Except.ok ns => Except.ok ⟨ns⟩
      else Except.error (ValidationErr.WrongArity xs.length)
    | some _ => Except.error (ValidationErr.FieldConstraint "notes" "value is not a valid list")
    | none => Except.error (ValidationErr.FieldConstraint "notes" "field required")
  | _ => Except.error ValidationErr.NotAnObject

/-- The function `validate_and_create_notes(json_content)` of
`02_generate_notes.py`: parse the raw text as JSON (the parser is
passed in as an abstract function standing for `json.loads`; a parse
failure carries the parser's diagnostic), then build the
`NotesResponse` and return its `notes`.  The source prints the caught
error and returns `None`; the model keeps the error value in the
`Except` so the error taxonomy can be stated. -/
def validate_and_create_notes (parse : String → Except String Json)
    (rawText : String) : Except ValidationErr (List Note) :=
  match parse rawText with
  | Except.error diag => Except.error (ValidationErr.Malformed diag)
  | Except.ok j =>
    match validateNotesResponse j with
    | Except.error e => Except.error e
    | Except.ok r => Except.ok r.notes

/-- Status of a remote run as the polling loops compare it: the code
tests `run.status` against the literals `"completed"`, `"failed"`,
`"cancelled"`, `"expired"`; everything else (queued/in-progress, the
spec's `pending`/`running`) falls into the loop's else branch. -/
inductive JobStatus where
  | pending
  | running
  | completed
  | failed
  | cancelled
  | expired
deriving Repr, DecidableEq

/-- How one of the wait loops was left: `completedBreak` for the
`break` on `completed`, `failedReturn` for the early `return` on
`failed` (carrying the printed `run.last_error` detail),
`terminalReturn` for the early `return` of `ask_question` on
`cancelled`/`expired` (carrying that status), `exhausted` for the
loop condition `attempts < max_attempts` turning false. -/
inductive LoopExit where
  | completedBreak
  | failedReturn (detail : String)
  | terminalReturn (st : JobStatus)
  | exhausted
deriving Repr, DecidableEq

/-- The wait loop of `generate_notes_with_assistant`
(`02_generate_notes.py`, lines 109-123): while attempts remain, fetch
the status of the k-th check; `completed` breaks, `failed` returns,
any other status prints a dot, sleeps one second and retries.
`cancelled` and `expired` are NOT tested here and take the else
branch.  The first argument of the result is how the loop was left;
the second and third count status checks and sleeps. -/
def genWaitLoop (status : Nat → JobStatus) (lastError : Nat → String) :
    (fuel : Nat) → (k : Nat) → LoopExit × Nat × Nat
  | 0, _ => (LoopExit.exhausted, 0, 0)
  | fuel + 1, k =>
    match status k with
    | JobStatus.completed => (LoopExit.completedBreak, 1, 0)
    | JobStatus.failed => (LoopExit.failedReturn (lastError k), 1, 0)
    | _ =>
      let r := genWaitLoop status lastError fuel (k + 1)
      (r.1, r.2.1 + 1, r.2.2 + 1)

/-- The wait loop of `ask_question` (`01_qna_assistant.py`, lines
74-91): as `genWaitLoop`, but `cancelled` and `expired` also return
early, carrying the status that was printed. -/
def qnaWaitLoop (status : Nat → JobStatus) (lastError : Nat → String) :
    (fuel : Nat) → (k : Nat) → LoopExit × Nat × Nat
  | 0, _ => (LoopExit.exhausted, 0, 0)
  | fuel + 1, k =>
    match status k with
    | JobStatus.completed => (LoopExit.completedBreak, 1, 0)
    | JobStatus.failed => (LoopExit.failedReturn (lastError k), 1, 0)
    | JobStatus.cancelled => (LoopExit.terminalReturn JobStatus.cancelled, 1, 0)
    | JobStatus.expired => (LoopExit.terminalReturn JobStatus.expired, 1, 0)
    | _ =>
      let r := qnaWaitLoop status lastError fuel (k + 1)
      (r.1, r.2.1 + 1, r.2.2 + 1)

/-- The polling part of `generate_notes_with_assistant`
(`02_generate_notes.py`, lines 106-131), parameterised over the
attempt bound (hard-coded to 30 in the source) and over the message
content that `messages.data[0].content[0].text.value` would yield.
On `failed` the function returns `None`; after the loop — whether it
broke on `completed` or exhausted its attempts — the code falls
through, fetches the thread's messages and returns the content.  The
result also carries the number of status checks and sleeps. -/
def generate_notes_with_assistant (status : Nat → JobStatus)
    (lastError : Nat → String) (maxAttempts : Nat)
    (messageContent : String) : Option String × Nat × Nat :=
  match genWaitLoop status lastError maxAttempts 0 with
  | (LoopExit.failedReturn _, c, s) => (none, c, s)
  | (_, c, s) => (some messageContent, c, s)

/-- The polling part of `ask_question` (`01_qna_assistant.py`, lines
71-97), parameterised the same way (the bound is hard-coded to 30 in
the source; `answer` stands for the extracted response text).  On
`failed`, `cancelled` or `expired` the function returns `(None, None)`;
after the loop, `attempts >= max_attempts` — which holds exactly when
the loop exhausted its attempts — prints a timeout notice and returns
`(None, None)`; only the `completed` break reaches the answer
extraction. -/
def ask_question (status : Nat → JobStatus) (lastError : Nat → String)
    (maxAttempts : Nat) (answer : String) : Option String × Nat × Nat :=
  match qnaWaitLoop status lastError maxAttempts 0 with
  | (LoopExit.completedBreak, c, s) => (some answer, c, s)
  | (_, c, s) => (none, c, s)

/-- Statuses on which the wait loop of `generate_notes_with_assistant`
takes its else branch (sleep and retry): everything except `completed`
and `failed` — in particular `cancelled` and `expired` retry there. -/
def genRetries (s : JobStatus) : Bool :=
  match s with
  | JobStatus.completed => false
  | JobStatus.failed => false
  | _ => true

/-- Statuses on which the wait loop of `ask_question` takes its else
branch: only the non-terminal `pending`/`running`. -/
def qnaRetries (s : JobStatus) : Bool :=
  match s with
  | JobStatus.pending => true
  | JobStatus.running => true
  | _ => false

/-- The status trace of the spec's scenario: `running`, `running`,
then `completed` from the third check on. -/
def rrcSeq : Nat → JobStatus :=
  fun k => if k < 2 then JobStatus.running else JobStatus.completed

/-- JSON object for one note with the given id and optional
`page_ref`, fixed short heading and summary. -/
def mkNoteJson (i : Int) (p : Option Int) : Json :=
  Json.obj
    ([("id", Json.num i), ("heading", Json.str "H"), ("summary", Json.str "S")] ++
      (match p with
       | some n => [("page_ref", Json.num n)]
       | none => []))

/-- Parsed form of a response whose first note carries
`page_ref = -5` and whose other nine notes have ids 2..10. -/
def negPageRefJson : Json :=
  Json.obj [("notes",
    Json.arr (mkNoteJson 1 (some (-5)) ::
      (List.range 9).map (fun k => mkNoteJson ((k : Int) + 2) none)))]

/-- The note list `negPageRefJson` validates to. -/
def negPageRefExpected : List Note :=
  ⟨1, "H", "S", some (-5)⟩ ::
    (List.range 9).map (fun k => ⟨(k : Int) + 2, "H", "S", none⟩)

/-- Parsed form of a response with ten notes all carrying id 1. -/
def dupIdJson : Json :=
  Json.obj [("notes",
    Json.arr (List.replicate 10 (mkNoteJson 1 none)))]

/-! Helper lemmas about the wait loops. -/

/-- Both counters of `genWaitLoop` are bounded by the fuel. -/
theorem genWaitLoop_le_fuel (status : Nat → JobStatus) (lastError : Nat → String) :
    ∀ fuel k, (genWaitLoop status lastError fuel k).2.1 ≤ fuel ∧
      (genWaitLoop status lastError fuel k).2.2 ≤ fuel := by
  intro fuel
  induction fuel with
  | zero => intro k; simp [genWaitLoop]
  | succ n ih =>
    intro k
    cases hs : status k <;> simp [genWaitLoop, hs] <;>
      first
        | omega
        | exact ⟨(ih (k + 1)).1, (ih (k + 1)).2⟩

/-- Both counters of `qnaWaitLoop` are bounded by the fuel. -/
theorem qnaWaitLoop_le_fuel (status : Nat → JobStatus) (lastError : Nat → String) :
    ∀ fuel k, (qnaWaitLoop status lastError fuel k).2.1 ≤ fuel ∧
      (qnaWaitLoop status lastError fuel k).2.2 ≤ fuel := by
  intro fuel
  induction fuel with
  | zero => intro k; simp [qnaWaitLoop]
  | succ n ih =>
    intro k
    cases hs : status k <;> simp [qnaWaitLoop, hs] <;>
      first
        | omega
        | exact ⟨(ih (k + 1)).1, (ih (k + 1)).2⟩

/-- One busy step of `genWaitLoop`: a status in the else branch costs
one check and one sleep and continues at the next index. -/
theorem genWaitLoop_succ_busy (status : Nat → JobStatus) (lastError : Nat → String)
    (f k : Nat) (h : genRetries (status k) = true) :
    genWaitLoop status lastError (f + 1) k =
      ((genWaitLoop status lastError f (k + 1)).1,
       (genWaitLoop status lastError f (k + 1)).2.1 + 1,
       (genWaitLoop status lastError f (k + 1)).2.2 + 1) := by
  cases hs : status k
  case completed => rw [hs] at h; simp [genRetries] at h
  case failed => rw [hs] at h; simp [genRetries] at h
  all_goals simp [genWaitLoop, hs]

/-- One busy step of `qnaWaitLoop`. -/
theorem qnaWaitLoop_succ_busy (status : Nat → JobStatus) (lastError : Nat → String)
    (f k : Nat) (h : qnaRetries (status k) = true) :
    qnaWaitLoop status lastError (f + 1) k =
      ((qnaWaitLoop status lastError f (k + 1)).1,
       (qnaWaitLoop status lastError f (k + 1)).2.1 + 1,
       (qnaWaitLoop status lastError f (k + 1)).2.2 + 1) := by
  cases hs : status k
  case completed => rw [hs] at h; simp [qnaRetries] at h
  case failed => rw [hs] at h; simp [qnaRetries] at h
  case cancelled => rw [hs] at h; simp [qnaRetries] at h
  case expired => rw [hs] at h; simp [qnaRetries] at h
  all_goals simp [qnaWaitLoop, hs]

/-- Running `genWaitLoop` past a prefix of j busy checks adds j to
both counters and continues j positions further with j less fuel. -/
theorem genWaitLoop_shift (status : Nat → JobStatus) (lastError : Nat → String) :
    ∀ (j fuel k : Nat), j ≤ fuel →
      (∀ i, i < j → genRetries (status (k + i)) = true) →
      genWaitLoop status lastError fuel k =
        ((genWaitLoop status lastError (fuel - j) (k + j)).1,
         (genWaitLoop status lastError (fuel - j) (k + j)).2.1 + j,
         (genWaitLoop status lastError (fuel - j) (k + j)).2.2 + j) := by
  intro j
  induction j with
  | zero => intro fuel k _ _; simp
  | succ n ih =>
    intro fuel k hle hbusy
    cases fuel with
    | zero => omega
    | succ f =>
      have h0 : genRetries (status k) = true := by
        have := hbusy 0 (Nat.succ_pos n)
        simpa using this
      rw [genWaitLoop_succ_busy status lastError f k h0]
      have hb : ∀ i, i < n → genRetries (status (k + 1 + i)) = true := by
        intro i hi
        have := hbusy (i + 1) (by omega)
        rw [show k + (i + 1) = k + 1 + i by omega] at this
        exact this
      rw [ih f (k + 1) (by omega) hb]
      rw [show f - n = f + 1 - (n + 1) by omega,
        show k + 1 + n = k + (n + 1) by omega]
      rfl

/-- Running `qnaWaitLoop` past a prefix of j busy checks adds j to
both counters and continues j positions further with j less fuel. -/
theorem qnaWaitLoop_shift (status : Nat → JobStatus) (lastError : Nat → String) :
    ∀ (j fuel k : Nat), j ≤ fuel →
      (∀ i, i < j → qnaRetries (status (k + i)) = true) →
      qnaWaitLoop status lastError fuel k =
        ((qnaWaitLoop status lastError (fuel - j) (k + j)).1,
         (qnaWaitLoop status lastError (fuel - j) (k + j)).2.1 + j,
         (qnaWaitLoop status lastError (fuel - j) (k + j)).2.2 + j) := by
  intro j
  induction j with
  | zero => intro fuel k _ _; simp
  | succ n ih =>
    intro fuel k hle hbusy
    cases fuel with
    | zero => omega
    | succ f =>
      have h0 : qnaRetries (status k) = true := by
        have := hbusy 0 (Nat.succ_pos n)
        simpa using this
      rw [qnaWaitLoop_succ_busy status lastError f k h0]
      have hb : ∀ i, i < n → qnaRetries (status (k + 1 + i)) = true := by
        intro i hi
        have := hbusy (i + 1) (by omega)
        rw [show k + (i + 1) = k + 1 + i by omega] at this
        exact this
      rw [ih f (k + 1) (by omega) hb]
      rw [show f - n = f + 1 - (n + 1) by omega,
        show k + 1 + n = k + (n + 1) by omega]
      rfl

/-- With positive fuel the gen loop performs at least one check. -/
theorem genWaitLoop_pos (status : Nat → JobStatus) (lastError : Nat → String)
    (fuel k : Nat) (h : 1 ≤ fuel) :
    1 ≤ (genWaitLoop status lastError fuel k).2.1 := by
  cases fuel with
  | zero => omega
  | succ f => cases hs : status k <;> simp [genWaitLoop, hs]

/-- The check and sleep counts reported by
`generate_notes_with_assistant` are those of its wait loop. -/
theorem generate_counts (status : Nat → JobStatus) (lastError : Nat → String)
    (maxAttempts : Nat) (content : String) :
    (generate_notes_with_assistant status lastError maxAttempts content).2 =
      (genWaitLoop status lastError maxAttempts 0).2 := by
  unfold generate_notes_with_assistant
  rcases h : genWaitLoop status lastError maxAttempts 0 with ⟨e, c, s⟩
  cases e <;> rfl

/-- The check and sleep counts reported by `ask_question` are those of
its wait loop. -/
theorem ask_counts (status : Nat → JobStatus) (lastError : Nat → String)
    (maxAttempts : Nat) (answer : String) :
    (ask_question status lastError maxAttempts answer).2 =
      (qnaWaitLoop status lastError maxAttempts 0).2 := by
  unfold ask_question
  rcases h : qnaWaitLoop status lastError maxAttempts 0 with ⟨e, c, s⟩
  cases e <;> rfl

/-! Helper lemmas about the validation layer. -/

/-- A note accepted by `validateNote` has its id within the schema
bound `ge=1, le=10`. -/
theorem validateNote_id_bounds (j : Json) (n : Note)
    (h : validateNote j = Except.ok n) : 1 ≤ n.id ∧ n.id ≤ 10 := by
  unfold validateNote at h
  repeat' split at h
  all_goals simp_all
  all_goals (subst h; simp_all)

/-- Successful element-wise validation preserves the list length. -/
theorem validateNotes_length :
    ∀ (xs : List Json) (ns : List Note), validateNotes xs = Except.ok ns →
      ns.length = xs.length := by
  intro xs
  induction xs with
  | nil => intro ns h; simp [validateNotes] at h; simp [← h]
  | cons x xs ih =>
    intro ns h
    simp only [validateNotes] at h
    cases hx : validateNote x with
    | error e => rw [hx] at h; simp at h
    | ok n =>
      rw [hx] at h
      cases hxs : validateNotes xs with
      | error e => rw [hxs] at h; simp at h
      | ok ms =>
        rw [hxs] at h
        simp at h
        subst h
        simp [ih ms hxs]

/-- Every note in a successfully validated list has its id in the
schema bound. -/
theorem validateNotes_id_bounds :
    ∀ (xs : List Json) (ns : List Note), validateNotes xs = Except.ok ns →
      ∀ n ∈ ns, 1 ≤ n.id ∧ n.id ≤ 10 := by
  intro xs
  induction xs with
  | nil =>
    intro ns h
    simp [validateNotes] at h
    subst h
    intro n hn
    simp at hn
  | cons x xs ih =>
    intro ns h
    simp only [validateNotes] at h
    cases hx : validateNote x with
    | error e => rw [hx] at h; simp at h
    | ok n =>
      rw [hx] at h
      cases hxs : validateNotes xs with
      | error e => rw [hxs] at h; simp at h
      | ok ms =>
        rw [hxs] at h
        simp at h
        subst h
        intro m hm
        rcases List.mem_cons.mp hm with hm | hm
        · subst hm; exact validateNote_id_bounds x m hx
        · exact ih ms hxs m hm

/-- A `NotesResponse` produced by the validator has exactly 10
notes. -/
theorem validateNotesResponse_ok_length (j : Json) (r : NotesResponse)
    (h : validateNotesResponse j = Except.ok r) : r.notes.length = 10 := by
  unfold validateNotesResponse at h
  repeat' split at h
  all_goals simp_all
  rename_i xs hget hlen x ns hns
  subst h
  exact (validateNotes_length xs ns hns).trans hlen

/-- Prepending a binding for a different key does not change a
lookup. -/
theorem objGet_cons_ne (k : String) (v : Json) (kvs : List (String × Json))
    (key : String) (h : k ≠ key) :
    objGet ((k, v) :: kvs) key = objGet kvs key := by
  simp [objGet, h]

/-- Unrolling `genWaitLoop` past a busy prefix of j checks starting at
index 0. -/
theorem genWaitLoop_run (status : Nat → JobStatus) (lastError : Nat → String)
    (maxAttempts j : Nat) (hj : j ≤ maxAttempts)
    (hbusy : ∀ i, i < j → genRetries (status i) = true) :
    genWaitLoop status lastError maxAttempts 0 =
      ((genWaitLoop status lastError (maxAttempts - j) j).1,
       (genWaitLoop status lastError (maxAttempts - j) j).2.1 + j,
       (genWaitLoop status lastError (maxAttempts - j) j).2.2 + j) := by
  have h := genWaitLoop_shift status lastError j maxAttempts 0 hj
    (by intro i hi; simpa using hbusy i hi)
  simpa using h

/-- Unrolling `qnaWaitLoop` past a busy prefix of j checks starting at
index 0. -/
theorem qnaWaitLoop_run (status : Nat → JobStatus) (lastError : Nat → String)
    (maxAttempts j : Nat) (hj : j ≤ maxAttempts)
    (hbusy : ∀ i, i < j → qnaRetries (status i) = true) :
    qnaWaitLoop status lastError maxAttempts 0 =
      ((qnaWaitLoop status lastError (maxAttempts - j) j).1,
       (qnaWaitLoop status lastError (maxAttempts - j) j).2.1 + j,
       (qnaWaitLoop status lastError (maxAttempts - j) j).2.2 + j) := by
  have h := qnaWaitLoop_shift status lastError j maxAttempts 0 hj
    (by intro i hi; simpa using hbusy i hi)
  simpa using h

/-! Claim theorems. -/

/-- C1, corrected part: both wait loops perform at most `maxAttempts`
status checks and at most `maxAttempts` sleeps (in a run that exhausts
its attempts each of the `maxAttempts` iterations sleeps once, so the
spec's bound of `maxAttempts - 1` sleeps does not hold); and in the
spec's scenario — `maxAttempts = 3`, statuses `running`, `running`,
`completed` — both functions return the output after exactly 3 checks
and 2 sleeps. -/
theorem C1_bounded_polling :
    (∀ (status : Nat → JobStatus) (lastError : Nat → String)
        (maxAttempts : Nat) (text : String),
      (generate_notes_with_assistant status lastError maxAttempts text).2.1 ≤ maxAttempts ∧
      (generate_notes_with_assistant status lastError maxAttempts text).2.2 ≤ maxAttempts ∧
      (ask_question status lastError maxAttempts text).2.1 ≤ maxAttempts ∧
      (ask_question status lastError maxAttempts text).2.2 ≤ maxAttempts) ∧
    generate_notes_with_assistant rrcSeq (fun _ => "") 3 "output" = (some "output", 3, 2) ∧
    ask_question rrcSeq (fun _ => "") 3 "answer" = (some "answer", 3, 2) := by
  refine ⟨?_, by decide, by decide⟩
  intro status lastError maxAttempts text
  have hg := genWaitLoop_le_fuel status lastError maxAttempts 0
  have hq := qnaWaitLoop_le_fuel status lastError maxAttempts 0
  have hgc := generate_counts status lastError maxAttempts text
  have hqc := ask_counts status lastError maxAttempts text
  refine ⟨?_, ?_, ?_, ?_⟩
  · rw [hgc]; exact hg.1
  · rw [hgc]; exact hg.2
  · rw [hqc]; exact hq.1
  · rw [hqc]; exact hq.2

/-- C1, counterexample: with `maxAttempts = 1` and a job that stays
`running`, the wait loop of `generate_notes_with_assistant` sleeps
once — more than the `maxAttempts - 1 = 0` sleeps the claim allows. -/
theorem C1_sleep_bound_counterexample :
    (generate_notes_with_assistant (fun _ => JobStatus.running) (fun _ => "") 1 "m").2.2 = 1 ∧
    ¬ ((generate_notes_with_assistant (fun _ => JobStatus.running) (fun _ => "") 1 "m").2.2 ≤ 1 - 1) := by
  decide

/-- C2: with `maxAttempts = 3` and a job that never reaches a terminal
state, `ask_question` takes its timeout branch and returns no answer,
but `generate_notes_with_assistant` falls through after the loop,
fetches the thread's messages and returns their content as if the run
had completed — it never signals the timeout. -/
theorem C2_timeout_fallthrough :
    generate_notes_with_assistant (fun _ => JobStatus.running) (fun _ => "") 3 "msg" = (some "msg", 3, 3) ∧
    ask_question (fun _ => JobStatus.running) (fun _ => "") 3 "ans" = (none, 3, 3) := by
  decide

/-- C3, corrected part: in `ask_question` any of the terminal failure
statuses `failed`, `cancelled`, `expired` observed on the (j+1)-th
check returns an error immediately — exactly j+1 checks and j sleeps,
no output; in `generate_notes_with_assistant` only `failed`
short-circuits this way, while `cancelled`/`expired` are treated as
non-terminal: the loop sleeps and performs at least one further
check. -/
theorem C3_terminal_short_circuit (status : Nat → JobStatus)
    (lastError : Nat → String) (maxAttempts j : Nat) (text : String)
    (hj : j < maxAttempts)
    (hbusy : ∀ i, i < j → status i = JobStatus.pending ∨ status i = JobStatus.running) :
    (status j = JobStatus.failed ∨ status j = JobStatus.cancelled ∨
        status j = JobStatus.expired →
      ask_question status lastError maxAttempts text = (none, j + 1, j)) ∧
    (status j = JobStatus.failed →
      generate_notes_with_assistant status lastError maxAttempts text = (none, j + 1, j)) ∧
    (status j = JobStatus.cancelled ∨ status j = JobStatus.expired →
      j + 1 < maxAttempts →
      j + 1 < (generate_notes_with_assistant status lastError maxAttempts text).2.1) := by
  have hqbusy : ∀ i, i < j → qnaRetries (status i) = true := by
    intro i hi
    rcases hbusy i hi with h | h <;> rw [h] <;> rfl
  have hgbusy : ∀ i, i < j → genRetries (status i) = true := by
    intro i hi
    rcases hbusy i hi with h | h <;> rw [h] <;> rfl
  obtain ⟨f, hf⟩ : ∃ f, maxAttempts - j = f + 1 := ⟨maxAttempts - j - 1, by omega⟩
  refine ⟨?_, ?_, ?_⟩
  · intro hterm
    have hrun := qnaWaitLoop_run status lastError maxAttempts j (by omega) hqbusy
    rw [hf] at hrun
    unfold ask_question
    rw [hrun]
    rcases hterm with h | h | h <;>
      simp [qnaWaitLoop, h, Nat.add_comm]
  · intro hterm
    have hrun := genWaitLoop_run status lastError maxAttempts j (by omega) hgbusy
    rw [hf] at hrun
    unfold generate_notes_with_assistant
    rw [hrun]
    simp [genWaitLoop, hterm, Nat.add_comm]
  · intro hterm hlt
    have hgbusy1 : ∀ i, i < j + 1 → genRetries (status i) = true := by
      intro i hi
      rcases Nat.lt_succ_iff_lt_or_eq.mp hi with hi | hi
      · exact hgbusy i hi
      · subst hi
        rcases hterm with h | h <;> rw [h] <;> rfl
    have hrun := genWaitLoop_run status lastError maxAttempts (j + 1) (by omega) hgbusy1
    have hpos := genWaitLoop_pos status lastError (maxAttempts - (j + 1)) (j + 1) (by omega)
    have hc := generate_counts status lastError maxAttempts text
    rw [hc, hrun]
    simp only []
    omega

/-- C3, witness: a job that fails on the very first check makes
`ask_question` and `generate_notes_with_assistant` return no output
after exactly one check and no sleep. -/
theorem C3_terminal_short_circuit_witness :
    ask_question (fun _ => JobStatus.failed) (fun _ => "boom") 1 "t" = (none, 1, 0) ∧
    generate_notes_with_assistant (fun _ => JobStatus.failed) (fun _ => "boom") 1 "t" = (none, 1, 0) := by
  have h := C3_terminal_short_circuit (fun _ => JobStatus.failed) (fun _ => "boom")
    1 0 "t" (by omega) (by intro i hi; omega)
  exact ⟨h.1 (Or.inl rfl), h.2.1 rfl⟩

/-- C3, counterexample: with `maxAttempts = 2` and a run that is
`cancelled` from the first check on, `generate_notes_with_assistant`
does not stop at the first check — it performs 2 checks and 2 sleeps
and then returns the fetched message content. -/
theorem C3_cancelled_retries_counterexample :
    generate_notes_with_assistant (fun _ => JobStatus.cancelled) (fun _ => "") 2 "o" = (some "o", 2, 2) ∧
    generate_notes_with_assistant (fun _ => JobStatus.cancelled) (fun _ => "") 2 "o" ≠ (none, 1, 0) := by
  decide

/-- C9, corrected part: with `maxAttempts = 0` neither function checks
the status or sleeps, and neither rejects the call: the wait loops
exit as exhausted, `ask_question` takes its ordinary timeout branch
and returns no answer, and `generate_notes_with_assistant` proceeds to
fetch and return the thread's message content. -/
theorem C9_zero_attempts (status : Nat → JobStatus) (lastError : Nat → String)
    (text : String) :
    generate_notes_with_assistant status lastError 0 text = (some text, 0, 0) ∧
    ask_question status lastError 0 text = (none, 0, 0) ∧
    genWaitLoop status lastError 0 0 = (LoopExit.exhausted, 0, 0) ∧
    qnaWaitLoop status lastError 0 0 = (LoopExit.exhausted, 0, 0) :=
  ⟨rfl, rfl, rfl, rfl⟩

/-- C9, counterexample: at `maxAttempts = 0` the code does not raise a
contract violation — `generate_notes_with_assistant` even returns the
fetched output, and `ask_question` silently returns its timeout
result. -/
theorem C9_zero_attempts_counterexample :
    generate_notes_with_assistant (fun _ => JobStatus.running) (fun _ => "") 0 "out" = (some "out", 0, 0) ∧
    ask_question (fun _ => JobStatus.running) (fun _ => "") 0 "ans" = (none, 0, 0) := by
  decide

/-- C4: the validator accepts a parsed object only when its `notes`
field is an array of exactly 10 elements; any other length n yields a
wrong-arity error carrying n, and every accepted response has exactly
10 notes. -/
theorem C4_exact_arity :
    (∀ (kvs : List (String × Json)) (xs : List Json),
      objGet kvs "notes" = some (Json.arr xs) → xs.length ≠ 10 →
      validateNotesResponse (Json.obj kvs) =
        Except.error (ValidationErr.WrongArity xs.length)) ∧
    (∀ (j : Json) (r : NotesResponse),
      validateNotesResponse j = Except.ok r → r.notes.length = 10) := by
  constructor
  · intro kvs xs hget hlen
    simp only [validateNotesResponse]
    rw [hget]
    simp [hlen]
  · exact validateNotesResponse_ok_length

/-- C4, witness: the spec's scenario — an empty `notes` array is
rejected with arity 0. -/
theorem C4_exact_arity_witness :
    validateNotesResponse (Json.obj [("notes", Json.arr [])]) =
      Except.error (ValidationErr.WrongArity 0) :=
  C4_exact_arity.1 [("notes", Json.arr [])] [] rfl (by decide)

/-- C5, counterexample: a response whose first note carries
`page_ref = -5` is accepted by the validator — the schema puts no
lower bound on `page_ref`. -/
theorem C5_negative_page_ref_counterexample :
    validateNotesResponse negPageRefJson = Except.ok ⟨negPageRefExpected⟩ ∧
    negPageRefExpected.head? = some ⟨1, "H", "S", some (-5)⟩ := by
  exact ⟨rfl, rfl⟩

/-- C5, corrected part: for an id within bounds, a note validates with
ANY integer `page_ref` — negative ones included — and with `page_ref`
absent. -/
theorem C5_page_ref_unconstrained (i : Int) (p : Int)
    (hi1 : 1 ≤ i) (hi2 : i ≤ 10) :
    validateNote (mkNoteJson i (some p)) = Except.ok ⟨i, "H", "S", some p⟩ ∧
    validateNote (mkNoteJson i none) = Except.ok ⟨i, "H", "S", none⟩ := by
  have hH : "H".length = 1 := rfl
  have hS : "S".length = 1 := rfl
  constructor <;> simp [mkNoteJson, validateNote, objGet, hi1, hi2, hH, hS]

/-- C5, witness: the note with id 1 and `page_ref = -5` is accepted. -/
theorem C5_page_ref_unconstrained_witness :
    validateNote (mkNoteJson 1 (some (-5))) = Except.ok ⟨1, "H", "S", some (-5)⟩ :=
  (C5_page_ref_unconstrained 1 (-5) (by decide) (by decide)).1

/-- C6: whenever the JSON parse of the raw text fails,
`validate_and_create_notes` returns the malformed-input error carrying
the parser's diagnostic. -/
theorem C6_malformed_input (parse : String → Except String Json)
    (rawText diag : String) (h : parse rawText = Except.error diag) :
    validate_and_create_notes parse rawText =
      Except.error (ValidationErr.Malformed diag) := by
  unfold validate_and_create_notes
  rw [h]

/-- C6, witness: the spec's scenario — raw text `not json` with the
diagnostic Python's parser produces for it. -/
theorem C6_malformed_input_witness :
    validate_and_create_notes
        (fun _ => Except.error "Expecting value: line 1 column 1 (char 0)")
        "not json" =
      Except.error (ValidationErr.Malformed "Expecting value: line 1 column 1 (char 0)") :=
  C6_malformed_input (fun _ => Except.error "Expecting value: line 1 column 1 (char 0)")
    "not json" "Expecting value: line 1 column 1 (char 0)" rfl

/-- C7: `validate_and_create_notes` is deterministic — two calls on
the same raw text agree — and its result depends only on the parse of
the raw text, with no other input or state. -/
theorem C7_pure_idempotent :
    (∀ (parse : String → Except String Json) (rawText : String),
      validate_and_create_notes parse rawText =
        validate_and_create_notes parse rawText) ∧
    (∀ (parse parseB : String → Except String Json) (r rB : String),
      parse r = parseB rB →
      validate_and_create_notes parse r = validate_and_create_notes parseB rB) := by
  constructor
  · intro parse r
    rfl
  · intro p pB r rB h
    unfold validate_and_create_notes
    rw [h]

/-- C7, witness: two calls whose parses agree return the same
result. -/
theorem C7_pure_idempotent_witness :
    validate_and_create_notes (fun _ => Except.error "e") "x" =
      validate_and_create_notes (fun _ => Except.error "e") "y" :=
  C7_pure_idempotent.2 (fun _ => Except.error "e") (fun _ => Except.error "e") "x" "y" rfl

/-- C8, counterexample: ten notes all with id 1 are accepted by the
validator, and their ids are not pairwise distinct — uniqueness is
never enforced. -/
theorem C8_duplicate_ids_counterexample :
    validateNotesResponse dupIdJson =
      Except.ok ⟨List.replicate 10 ⟨1, "H", "S", none⟩⟩ ∧
    ¬ ((List.replicate 10 (⟨1, "H", "S", none⟩ : Note)).map Note.id).Nodup := by
  exact ⟨rfl, by decide⟩

/-- C8, corrected part: every accepted response has exactly 10 notes
with each id in 1..10; distinctness of ids is not part of the enforced
invariant. -/
theorem C8_invariant_without_uniqueness (j : Json) (r : NotesResponse)
    (h : validateNotesResponse j = Except.ok r) :
    r.notes.length = 10 ∧ ∀ n ∈ r.notes, 1 ≤ n.id ∧ n.id ≤ 10 := by
  refine ⟨validateNotesResponse_ok_length j r h, ?_⟩
  unfold validateNotesResponse at h
  repeat' split at h
  all_goals simp_all
  rename_i xs hget hlen x ns hns
  subst h
  exact validateNotes_id_bounds xs ns hns

/-- C8, witness: the enforced part of the invariant at the concrete
accepted response with duplicated ids. -/
theorem C8_invariant_witness :
    ((⟨List.replicate 10 ⟨1, "H", "S", none⟩⟩ : NotesResponse)).notes.length = 10 ∧
    ∀ n ∈ ((⟨List.replicate 10 ⟨1, "H", "S", none⟩⟩ : NotesResponse)).notes,
      1 ≤ n.id ∧ n.id ≤ 10 :=
  C8_invariant_without_uniqueness dupIdJson ⟨List.replicate 10 ⟨1, "H", "S", none⟩⟩ rfl

/-- C10: unknown fields are ignored — a binding for any key other
than `notes` does not change the validator's result on the top-level
object, and a binding for any key other than the four schema fields
does not change the validation of a note object. -/
theorem C10_extra_fields_ignored :
    (∀ (kvs : List (String × Json)) (k : String) (v : Json), k ≠ "notes" →
      validateNotesResponse (Json.obj ((k, v) :: kvs)) =
        validateNotesResponse (Json.obj kvs)) ∧
    (∀ (kvs : List (String × Json)) (k : String) (v : Json),
      k ≠ "id" → k ≠ "heading" → k ≠ "summary" → k ≠ "page_ref" →
      validateNote (Json.obj ((k, v) :: kvs)) = validateNote (Json.obj kvs)) := by
  constructor
  · intro kvs k v hk
    simp only [validateNotesResponse]
    rw [objGet_cons_ne k v kvs "notes" hk]
  · intro kvs k v h1 h2 h3 h4
    simp only [validateNote]
    rw [objGet_cons_ne k v kvs "id" h1, objGet_cons_ne k v kvs "heading" h2,
      objGet_cons_ne k v kvs "summary" h3, objGet_cons_ne k v kvs "page_ref" h4]

/-- C10, witness: an unknown top-level key and an unknown note field
leave the results unchanged at concrete inputs. -/
theorem C10_extra_fields_witness :
    validateNotesResponse (Json.obj [("extra", Json.null), ("notes", Json.arr [])]) =
      validateNotesResponse (Json.obj [("notes", Json.arr [])]) ∧
    validateNote (Json.obj (("color", Json.str "red") ::
        [("id", Json.num 1), ("heading", Json.str "H"), ("summary", Json.str "S")])) =
      validateNote (Json.obj [("id", Json.num 1), ("heading", Json.str "H"),
        ("summary", Json.str "S")]) :=
  ⟨C10_extra_fields_ignored.1 [("notes", Json.arr [])] "extra" Json.null (by decide),
   C10_extra_fields_ignored.2
     [("id", Json.num 1), ("heading", Json.str "H"), ("summary", Json.str "S")]
     "color" (Json.str "red") (by decide) (by decide) (by decide) (by decide)⟩

end StudyAssistant
